import Mathlib

/-!
Verification of the auto-healing locator resolver and the visual-comparison
glue of a Cypress automation framework.  The definitions below are a shallow
embedding of the TypeScript sources: the `AutoHealing` class (strategy
generation, sensitivity filtering, the retry loop `attemptFind`), the
`compareImages` Cypress task together with the `compareSnapshot` command, and
`VisualTesting.performImageComparison`.  DOM snapshots are modelled as the
predicate "this selector matches at least one element"; the host runner's
side effects (waits, healing-log appends) are made explicit in the result
record so theorems can speak about them.
-/

namespace CypressAuto

/-- Sensitivity tier of the auto-healing configuration
(`'low' | 'medium' | 'high'` in `AutoHealingConfig`). -/
inductive Sensitivity where
  | low
  | medium
  | high
deriving DecidableEq, Repr

/-- Mirrors the TypeScript `AutoHealingConfig` interface. -/
structure AutoHealingConfig where
  enabled : Bool
  sensitivity : Sensitivity
  maxRetries : Nat
  reportPath : String
deriving Repr

/-- Mirrors the TypeScript `HealingStrategy` interface
(`{name, priority, selectors}`). -/
structure HealingStrategy where
  name : String
  priority : Nat
  selectors : List String
deriving DecidableEq, Repr

/-- Mirrors the TypeScript `HealingLog` interface. -/
structure HealingLog where
  timestamp : String
  testFile : String
  oldSelector : String
  newSelector : String
  action : String
  elementType : String
deriving DecidableEq, Repr

/-- Ambient values the class reads from the runner when it builds a log
record (`new Date().toISOString()` and `Cypress.spec.relative`). -/
structure TestEnv where
  timestamp : String
  testFile : String

namespace AutoHealing

/-- Whitespace class of a JavaScript regular expression (`\s`), restricted to
the ASCII range actually occurring in selector strings. -/
def isJsSpace (c : Char) : Bool :=
  c == ' ' || c == '\t' || c == '\n' || c == '\r' || c == '\x0B' || c == '\x0C'

/-- Word class of a JavaScript regular expression extended with a dash
(`[\w-]`). -/
def isWordDash (c : Char) : Bool :=
  c.isAlphanum || c == '_' || c == '-'

/-- Leftmost match of `/#([^.\s\[]+)/`: a `#` followed by a nonempty maximal
run of characters that are not `.`, whitespace or `[`. -/
def scanHashId : List Char → Option String
  | [] => none
  | c :: rest =>
    if c == '#' then
      let run := rest.takeWhile (fun d => !(d == '.' || isJsSpace d || d == '['))
      if run.isEmpty then scanHashId rest else some (String.mk run)
    else scanHashId rest

/-- Leftmost match of `/\.([^#\s\[]+)/`: a `.` followed by a nonempty maximal
run of characters that are not `#`, whitespace or `[`. -/
def scanClassId : List Char → Option String
  | [] => none
  | c :: rest =>
    if c == '.' then
      let run := rest.takeWhile (fun d => !(d == '#' || isJsSpace d || d == '['))
      if run.isEmpty then scanClassId rest else some (String.mk run)
    else scanClassId rest

/-- Leftmost match of `/\[[\w-]+="([^"]+)"\]/`, returning the quoted
attribute value. -/
def scanAttrValue : List Char → Option String
  | [] => none
  | c :: rest =>
    if c == '[' then
      let attrName := rest.takeWhile isWordDash
      match attrName, rest.drop attrName.length with
      | _ :: _, '=' :: '"' :: rest3 =>
        let v := rest3.takeWhile (fun d => d != '"')
        match v, rest3.drop v.length with
        | _ :: _, '"' :: ']' :: _ => some (String.mk v)
        | _, _ => scanAttrValue rest
      | _, _ => scanAttrValue rest
    else scanAttrValue rest

/-- Boolean test that `p` is a prefix of the second list. -/
def hasPrefixChars : List Char → List Char → Bool
  | [], _ => true
  | _ :: _, [] => false
  | p :: ps, c :: cs => p == c && hasPrefixChars ps cs

/-- Leftmost match of `/:contains\("([^"]+)"\)/`, returning the quoted
text. -/
def scanContainsText : List Char → Option String
  | [] => none
  | c :: rest =>
    if hasPrefixChars (String.toList ":contains(\x22") (c :: rest) then
      let after := (c :: rest).drop 11
      let v := after.takeWhile (fun d => d != '"')
      match v, after.drop v.length with
      | _ :: _, '"' :: ')' :: _ => some (String.mk v)
      | _, _ => scanContainsText rest
    else scanContainsText rest

/-- Mirrors `AutoHealing.extractIdentifier`: try the id, class, attribute
value and `:contains` patterns in that order, returning the first match. -/
def extractIdentifier (selector : String) : Option String :=
  match scanHashId selector.toList with
  | some v => some v
  | none =>
    match scanClassId selector.toList with
    | some v => some v
    | none =>
      match scanAttrValue selector.toList with
      | some v => some v
      | none => scanContainsText selector.toList

/-- Attribute names tried by the attribute strategy. -/
def attributeNames : List String :=
  ["id", "name", "data-testid", "data-cy", "data-test", "class", "aria-label"]

/-- The four selector variants pushed for each attribute name
(`=`, `*=`, `^=`, `$=`). -/
def attrVariants (attr ident : String) : List String :=
  ["[" ++ attr ++ "=\"" ++ ident ++ "\"]",
   "[" ++ attr ++ "*=\"" ++ ident ++ "\"]",
   "[" ++ attr ++ "^=\"" ++ ident ++ "\"]",
   "[" ++ attr ++ "$=\"" ++ ident ++ "\"]"]

/-- Mirrors `AutoHealing.getAttributeStrategy`. -/
def getAttributeStrategy (originalSelector : String) : HealingStrategy :=
  let selectors :=
    match extractIdentifier originalSelector with
    | some ident => attributeNames.flatMap (fun attr => attrVariants attr ident)
    | none => []
  { name := "Attribute Strategy", priority := 1, selectors := selectors }

/-- Mirrors the `semanticMap` lookup table in `getSemanticStrategy`. -/
def semanticMap (elementType : String) : List String :=
  if elementType == "button" then
    ["button", "[role=\"button\"]", "input[type=\"submit\"]", "input[type=\"button\"]"]
  else if elementType == "input" then
    ["input", "[role=\"textbox\"]", "textarea", "[contenteditable=\"true\"]"]
  else if elementType == "link" then
    ["a", "[role=\"link\"]"]
  else if elementType == "select" then
    ["select", "[role=\"combobox\"]", "[role=\"listbox\"]"]
  else if elementType == "text" then
    ["span", "div", "p", "[role=\"text\"]", "label"]
  else if elementType == "container" then
    ["div", "section", "article", "[role=\"main\"]", "[role=\"region\"]"]
  else []

/-- Mirrors `AutoHealing.getSemanticStrategy`. -/
def getSemanticStrategy (elementType : String) : HealingStrategy :=
  { name := "Semantic Strategy", priority := 2, selectors := semanticMap elementType }

/-- JavaScript `String.prototype.trim`: strip leading and trailing
whitespace. -/
def trimString (s : String) : String :=
  String.mk (((s.toList.dropWhile Char.isWhitespace).reverse.dropWhile
    Char.isWhitespace).reverse)

/-- JavaScript `String.prototype.toLowerCase`, per code point. -/
def toLowerString (s : String) : String :=
  String.mk (s.toList.map Char.toLower)

/-- JavaScript `String.prototype.toUpperCase`, per code point. -/
def toUpperString (s : String) : String :=
  String.mk (s.toList.map Char.toUpper)

/-- The `.replace(/([A-Z])/g, ' $1')` step of the text strategy. -/
def spaceBeforeCaps (s : String) : String :=
  String.mk (s.toList.flatMap (fun c => if 'A' ≤ c ∧ c ≤ 'Z' then [' ', c] else [c]))

/-- The `.replace(/[-_]/g, ' ')` step of the text strategy. -/
def dashToSpace (s : String) : String :=
  String.mk (s.toList.map (fun c => if c == '-' || c == '_' then ' ' else c))

/-- Mirrors `AutoHealing.capitalizeFirst`. -/
def capitalizeFirst (str : String) : String :=
  match str.toList with
  | [] => ""
  | c :: rest => String.mk (c.toUpper :: rest)

/-- The four selectors pushed for each common text variation. -/
def textVariantSelectors (variation : String) : List String :=
  ["button:contains(\"" ++ variation ++ "\")",
   "a:contains(\"" ++ variation ++ "\")",
   "[aria-label=\"" ++ variation ++ "\"]",
   "[title=\"" ++ variation ++ "\"]"]

/-- Mirrors `AutoHealing.getTextStrategy`. -/
def getTextStrategy (originalSelector : String) : HealingStrategy :=
  let selectors :=
    match extractIdentifier originalSelector with
    | some ident =>
      let readableText := toLowerString (trimString (dashToSpace (spaceBeforeCaps ident)))
      let commonVariations :=
        [readableText, capitalizeFirst readableText, toUpperString readableText, ident]
      [":contains(\"" ++ readableText ++ "\")", ":contains(\"" ++ ident ++ "\")"]
        ++ commonVariations.flatMap textVariantSelectors
    | none => []
  { name := "Text Strategy", priority := 3, selectors := selectors }

/-- Boolean substring test, mirroring JavaScript `String.prototype.includes`. -/
def hasSubstringChars (needle : List Char) : List Char → Bool
  | [] => needle.isEmpty
  | c :: rest => hasPrefixChars needle (c :: rest) || hasSubstringChars needle rest

/-- Substring test on strings (`originalSelector.includes(...)`). -/
def jsIncludes (s sub : String) : Bool :=
  hasSubstringChars sub.toList s.toList

/-- Mirrors `AutoHealing.getStructuralStrategy`; the position-based selectors
are appended only when the configured sensitivity is `high`. -/
def getStructuralStrategy (originalSelector : String) (sensitivity : Sensitivity) :
    HealingStrategy :=
  let formPart :=
    if jsIncludes originalSelector "form" then
      ["form input", "form button", "form select", "form textarea"]
    else []
  let navPart :=
    if jsIncludes originalSelector "nav" || jsIncludes originalSelector "menu" then
      ["nav a", "nav button", "[role=\"navigation\"] a", "[role=\"menuitem\"]"]
    else []
  let tablePart :=
    if jsIncludes originalSelector "table" then
      ["table td", "table th", "table button", "table a"]
    else []
  let positionPart :=
    if sensitivity == Sensitivity.high then
      [":first", ":last", ":nth-child(1)", ":nth-child(2)"]
    else []
  { name := "Structural Strategy", priority := 4,
    selectors := formPart ++ navPart ++ tablePart ++ positionPart }

/-- Mirrors the `roleMap` lookup table in `getRoleStrategy`. -/
def roleMap (elementType : String) : List String :=
  if elementType == "button" then ["[role=\"button\"]"]
  else if elementType == "input" then ["[role=\"textbox\"]", "[role=\"searchbox\"]"]
  else if elementType == "link" then ["[role=\"link\"]"]
  else if elementType == "select" then ["[role=\"combobox\"]", "[role=\"listbox\"]"]
  else if elementType == "text" then ["[role=\"text\"]", "[role=\"heading\"]"]
  else if elementType == "container" then
    ["[role=\"main\"]", "[role=\"region\"]", "[role=\"section\"]"]
  else []

/-- The common ARIA landmark roles always appended by the role strategy. -/
def commonRoles : List String :=
  ["[role=\"banner\"]", "[role=\"navigation\"]", "[role=\"main\"]",
   "[role=\"complementary\"]", "[role=\"contentinfo\"]"]

/-- JavaScript truthiness of an optional string (`undefined` and the empty
string are falsy). -/
def truthy : Option String → Bool
  | none => false
  | some s => !s.isEmpty

/-- Mirrors `AutoHealing.getRoleStrategy`. -/
def getRoleStrategy (elementType : Option String) : HealingStrategy :=
  let fromType :=
    match elementType with
    | some t => if t.isEmpty then [] else roleMap t
    | none => []
  { name := "Role Strategy", priority := 5, selectors := fromType ++ commonRoles }

/-- Mirrors `AutoHealing.getFuzzyMatchingStrategy`. -/
def getFuzzyMatchingStrategy (originalSelector : String) : HealingStrategy :=
  let selectors :=
    match extractIdentifier originalSelector with
    | some ident =>
      if ident.toList.length > 3 then
        let partialId := String.mk (ident.toList.take (ident.toList.length / 2))
        let base :=
          ["[id*=\"" ++ partialId ++ "\"]",
           "[class*=\"" ++ partialId ++ "\"]",
           "[data-testid*=\"" ++ partialId ++ "\"]"]
        let cleanId := String.mk (ident.toList.filter (fun c => c.isAlphanum))
        if cleanId != ident then
          base ++ ["[id*=\"" ++ cleanId ++ "\"]", "[class*=\"" ++ cleanId ++ "\"]"]
        else base
      else []
    | none => []
  { name := "Fuzzy Matching Strategy", priority := 6, selectors := selectors }

/-- Mirrors `AutoHealing.getSensitivityMaxPriority` (low→2, medium→4,
high→6). -/
def getSensitivityMaxPriority : Sensitivity → Nat
  | Sensitivity.low => 2
  | Sensitivity.medium => 4
  | Sensitivity.high => 6

/-- Ascending-priority comparison used by the JavaScript
`sort((a, b) => a.priority - b.priority)`. -/
def strategyOrder (a b : HealingStrategy) : Prop :=
  a.priority ≤ b.priority

instance : DecidableRel strategyOrder :=
  fun a b => inferInstanceAs (Decidable (a.priority ≤ b.priority))

instance : IsTotal HealingStrategy strategyOrder :=
  ⟨fun a b => Nat.le_total a.priority b.priority⟩

instance : IsTrans HealingStrategy strategyOrder :=
  ⟨fun _ _ _ h1 h2 => Nat.le_trans h1 h2⟩

/-- Mirrors `AutoHealing.filterStrategiesBySensitivity`: drop strategies
above the sensitivity ceiling, then stably sort by ascending priority
(JavaScript `sort((a, b) => a.priority - b.priority)`). -/
def filterStrategiesBySensitivity (sensitivity : Sensitivity)
    (strategies : List HealingStrategy) : List HealingStrategy :=
  List.insertionSort strategyOrder
    (strategies.filter (fun s => decide (s.priority ≤ getSensitivityMaxPriority sensitivity)))

/-- Mirrors `AutoHealing.getHealingStrategies`: build the six strategies in
order (the semantic strategy only when an element type is given), then apply
the sensitivity filter. -/
def getHealingStrategies (originalSelector : String) (elementType : Option String)
    (sensitivity : Sensitivity) : List HealingStrategy :=
  let strategies :=
    [getAttributeStrategy originalSelector]
      ++ (if truthy elementType then [getSemanticStrategy (elementType.getD "")] else [])
      ++ [getTextStrategy originalSelector,
          getStructuralStrategy originalSelector sensitivity,
          getRoleStrategy elementType,
          getFuzzyMatchingStrategy originalSelector]
  filterStrategiesBySensitivity sensitivity strategies

/-- One DOM snapshot, abstracted to the observation the class makes of it:
whether `$body.find(selector).length > 0` for a given selector string. -/
def Dom := String → Bool

/-- Mirrors `cy.get(selector)`: yields the element located by `selector`, or
fails the way the runner does when nothing matches. -/
def cyGet (dom : Dom) (selector : String) : Except String String :=
  if dom selector then Except.ok selector
  else Except.error ("Timed out retrying: Expected to find element: " ++ selector)

/-- The nested strategy/selector loop of `attemptFind`: the first candidate
selector, scanning strategies in list order and each strategy's selectors in
generation order, that matches the snapshot. -/
def findFirstMatch (dom : Dom) (strategies : List HealingStrategy) : Option String :=
  (strategies.flatMap (fun s => s.selectors)).find? dom

/-- Mirrors `AutoHealing.getRetryDelay`: exponential backoff with jitter,
`rand` standing for the `Math.random()` draw of that call. -/
def getRetryDelay (attempt : Nat) (rand : ℚ) : ℚ :=
  let baseDelay : ℚ := 1000
  let maxDelay : ℚ := 5000
  let delay := min (baseDelay * 2 ^ (attempt - 1)) maxDelay
  let jitter := rand * (0.1 : ℚ) * delay
  delay + jitter

/-- The error message thrown when every attempt is exhausted. -/
def healFailMsg (originalSelector : String) (maxRetries : Nat) : String :=
  "Auto-healing failed: Element not found with selector \"" ++ originalSelector
    ++ "\" after " ++ toString maxRetries ++ " attempts using all available strategies"

/-- Builds the record passed to `logHealingAction`
(`elementType: elementType || 'unknown'`). -/
def mkHealLog (env : TestEnv) (oldSelector newSelector action : String)
    (elementType : Option String) : HealingLog :=
  { timestamp := env.timestamp
    testFile := env.testFile
    oldSelector := oldSelector
    newSelector := newSelector
    action := action
    elementType :=
      match elementType with
      | some t => if t.isEmpty then "unknown" else t
      | none => "unknown" }

/-- Observable outcome of one `findElement` call: the returned element (or
thrown error), the healing-log records pushed, the `cy.wait` durations, and
how many times the strategy list was generated. -/
structure HealResult where
  outcome : Except String String
  logs : List HealingLog
  waits : List ℚ
  strategiesGenerated : Nat

/-- Mirrors the recursive closure `attemptFind` inside
`AutoHealing.findElement`.  `doms k` is the DOM snapshot the `k`-th attempt
observes (`cy.get('body')` re-queries the DOM each round) and `rand k` the
`Math.random()` draw used for the `k`-th backoff. -/
def attemptFind (env : TestEnv) (cfg : AutoHealingConfig) (originalSelector : String)
    (elementType : Option String) (doms : Nat → Dom) (rand : Nat → ℚ)
    (attempts : Nat) : HealResult :=
  if doms attempts originalSelector then
    { outcome := cyGet (doms attempts) originalSelector
      logs := [], waits := [], strategiesGenerated := 0 }
  else if attempts ≤ cfg.maxRetries then
    match findFirstMatch (doms attempts)
        (getHealingStrategies originalSelector elementType cfg.sensitivity) with
    | some healed =>
      { outcome := cyGet (doms attempts) healed
        logs := [mkHealLog env originalSelector healed "element_found" elementType]
        waits := [], strategiesGenerated := 1 }
    | none =>
      if h : attempts < cfg.maxRetries then
        let rest := attemptFind env cfg originalSelector elementType doms rand (attempts + 1)
        { outcome := rest.outcome
          logs := rest.logs
          waits := getRetryDelay attempts (rand attempts) :: rest.waits
          strategiesGenerated := 1 + rest.strategiesGenerated }
      else
        { outcome := Except.error (healFailMsg originalSelector cfg.maxRetries)
          logs := [mkHealLog env originalSelector "" "healing_failed" elementType]
          waits := [], strategiesGenerated := 1 }
  else
    { outcome := Except.error (healFailMsg originalSelector cfg.maxRetries)
      logs := [mkHealLog env originalSelector "" "healing_failed" elementType]
      waits := [], strategiesGenerated := 0 }
termination_by cfg.maxRetries - attempts
decreasing_by omega

/-- Mirrors `AutoHealing.findElement`: the disabled path degrades to a plain
`cy.get`, otherwise the retry loop starts with `attempts = 1`. -/
def findElement (env : TestEnv) (cfg : AutoHealingConfig) (originalSelector : String)
    (elementType : Option String) (doms : Nat → Dom) (rand : Nat → ℚ) : HealResult :=
  if !cfg.enabled then
    { outcome := cyGet (doms 1) originalSelector
      logs := [], waits := [], strategiesGenerated := 0 }
  else
    attemptFind env cfg originalSelector elementType doms rand 1

end AutoHealing

/-- Mirrors the `VisualComparisonResult` interface. -/
structure VisualComparisonResult where
  passed : Bool
  diffPixels : Nat
  diffPath : Option String
  error : Option String
deriving DecidableEq, Repr

/-- Raster image as far as the comparison glue observes it; the pixel data
itself is only ever handed to the external diff routine. -/
structure Image where
  width : Nat
  height : Nat
  data : List Nat
deriving DecidableEq

namespace VisualTesting

/-- Mirrors the `compareImages` Cypress task of the project configuration:
run the external pixel-diff routine (`pixelmatch`, abstracted as a function
from the two images and the threshold to a differing-pixel count) and report
`passed` as `numDiffPixels === 0`. -/
def compareImagesTask (pixelmatch : Image → Image → ℚ → Nat)
    (baseline actual : Image) (threshold : ℚ) (diffPath : String) :
    VisualComparisonResult :=
  let numDiffPixels := pixelmatch baseline actual threshold
  { passed := numDiffPixels == 0
    diffPixels := numDiffPixels
    diffPath := some diffPath
    error := none }

/-- Mirrors the failure decision of the `compareSnapshot` command: the test
is failed only when the comparison did not pass and the differing-pixel
count exceeds `threshold * 1000`. -/
def compareSnapshotFails (result : VisualComparisonResult) (threshold : ℚ) : Bool :=
  !result.passed && decide ((result.diffPixels : ℚ) > threshold * 1000)

/-- Mirrors the `copyFile` task used when no baseline exists. -/
def copyFileTask (fs : String → Option Image) (source destination : String) :
    String → Option Image :=
  fun p => if p = destination then fs source else fs p

/-- Mirrors `VisualTesting.performImageComparison`: when the baseline file
cannot be read, copy the actual image to the baseline path and report a pass
with zero differing pixels; otherwise delegate to the comparison task
(abstracted as `cmpTask` over the two images on disk). -/
def performImageComparison (cmpTask : Image → Image → VisualComparisonResult)
    (baselinePath actualPath : String) (fs : String → Option Image) :
    Except String (VisualComparisonResult × (String → Option Image)) :=
  match fs baselinePath with
  | none =>
    Except.ok ({ passed := true, diffPixels := 0, diffPath := none, error := none },
      copyFileTask fs actualPath baselinePath)
  | some baselineImg =>
    match fs actualPath with
    | some actualImg => Except.ok (cmpTask baselineImg actualImg, fs)
    | none => Except.error "failed to read actual image"

end VisualTesting

/-- Concrete DOM snapshot fixture used by witnesses: it matches exactly one
priority-3 text-strategy candidate and one priority-5 role-strategy
candidate. -/
def fixtureDom : AutoHealing.Dom :=
  fun s => s == "button:contains(\"submit btn\")" || s == "[role=\"banner\"]"

/-! ## Helper lemmas -/

open AutoHealing VisualTesting

/-- Every strategy surviving the sensitivity filter is below the ceiling. -/
theorem priority_le_of_mem_filterStrategies {sens : Sensitivity}
    {l : List HealingStrategy} {s : HealingStrategy}
    (hs : s ∈ filterStrategiesBySensitivity sens l) :
    s.priority ≤ getSensitivityMaxPriority sens := by
  unfold filterStrategiesBySensitivity at hs
  have hmem := (List.perm_insertionSort strategyOrder _).subset hs
  rw [List.mem_filter] at hmem
  exact of_decide_eq_true hmem.2

/-- The sensitivity filter emits its survivors sorted by ascending
priority. -/
theorem sorted_filterStrategies (sens : Sensitivity) (l : List HealingStrategy) :
    List.Sorted strategyOrder (filterStrategiesBySensitivity sens l) := by
  unfold filterStrategiesBySensitivity
  exact List.sorted_insertionSort strategyOrder _

/-- A successful `find?` splits the list at the first satisfying element. -/
theorem find?_split {α : Type} {p : α → Bool} {a : α} :
    ∀ {l : List α}, l.find? p = some a →
      ∃ before after, l = before ++ a :: after ∧ p a = true ∧
        ∀ x ∈ before, p x = false := by
  intro l
  induction l with
  | nil => intro h; simp [List.find?] at h
  | cons c cs ih =>
    intro h
    rw [List.find?] at h
    cases hc : p c with
    | true =>
      rw [hc] at h
      injection h with h
      subst h
      exact ⟨[], cs, rfl, hc, by simp⟩
    | false =>
      rw [hc] at h
      obtain ⟨before, after, heq, hpa, hbefore⟩ := ih h
      refine ⟨c :: before, after, by rw [heq, List.cons_append], hpa, ?_⟩
      intro x hx
      rcases List.mem_cons.mp hx with hx | hx
      · subst hx; exact hc
      · exact hbefore x hx

/-- A candidate reported by the strategy/selector loop matches the
snapshot. -/
theorem findFirstMatch_matches {dom : Dom} {strategies : List HealingStrategy}
    {c : String} (h : findFirstMatch dom strategies = some c) : dom c = true := by
  unfold findFirstMatch at h
  exact List.find?_some h

/-- Against a snapshot matching nothing, the strategy/selector loop finds
nothing. -/
theorem findFirstMatch_of_nomatch {dom : Dom} (h : ∀ s, dom s = false)
    (strategies : List HealingStrategy) : findFirstMatch dom strategies = none := by
  unfold findFirstMatch
  rw [List.find?_eq_none]
  intro x _
  simp [h x]

/-- When the retry loop ends in an error, the healing log holds exactly the
single `healing_failed` record and the message is the exhaustion message. -/
theorem attemptFind_error_shape (env : TestEnv) (cfg : AutoHealingConfig)
    (sel : String) (hint : Option String) (doms : Nat → Dom) (rand : Nat → ℚ) :
    ∀ (n attempts : Nat) (m : String), cfg.maxRetries - attempts ≤ n →
      (attemptFind env cfg sel hint doms rand attempts).outcome = Except.error m →
      (attemptFind env cfg sel hint doms rand attempts).logs =
        [mkHealLog env sel "" "healing_failed" hint] ∧
      m = healFailMsg sel cfg.maxRetries := by
  intro n
  induction n with
  | zero =>
    intro attempts m hle herr
    rw [attemptFind] at herr ⊢
    cases hdom : doms attempts sel with
    | true => simp [hdom, cyGet] at herr
    | false =>
      by_cases hatt : attempts ≤ cfg.maxRetries
      · cases hfm : findFirstMatch (doms attempts)
            (getHealingStrategies sel hint cfg.sensitivity) with
        | some healed =>
          have hh := findFirstMatch_matches hfm
          simp [hdom, hatt, hfm, cyGet, hh] at herr
        | none =>
          have hlt : ¬ attempts < cfg.maxRetries := by omega
          simp [hdom, hatt, hfm, hlt] at herr ⊢
          exact herr.symm
      · simp [hdom, hatt] at herr ⊢
        exact herr.symm
  | succ n ih =>
    intro attempts m hle herr
    rw [attemptFind] at herr ⊢
    cases hdom : doms attempts sel with
    | true => simp [hdom, cyGet] at herr
    | false =>
      by_cases hatt : attempts ≤ cfg.maxRetries
      · cases hfm : findFirstMatch (doms attempts)
            (getHealingStrategies sel hint cfg.sensitivity) with
        | some healed =>
          have hh := findFirstMatch_matches hfm
          simp [hdom, hatt, hfm, cyGet, hh] at herr
        | none =>
          by_cases hlt : attempts < cfg.maxRetries
          · simp [hdom, hatt, hfm, hlt] at herr ⊢
            exact ih (attempts + 1) m (by omega) herr
          · simp [hdom, hatt, hfm, hlt] at herr ⊢
            exact herr.symm
      · simp [hdom, hatt] at herr ⊢
        exact herr.symm

/-- When the original selector never matches a constant snapshot, a
successful resolution necessarily returns the selector reported by the
strategy/selector loop. -/
theorem attemptFind_const_ok (env : TestEnv) (cfg : AutoHealingConfig)
    (sel : String) (hint : Option String) (dom : Dom) (rand : Nat → ℚ) (c : String)
    (hsel : dom sel = false) :
    ∀ (n attempts : Nat), cfg.maxRetries - attempts ≤ n →
      (attemptFind env cfg sel hint (fun _ => dom) rand attempts).outcome = Except.ok c →
      findFirstMatch dom (getHealingStrategies sel hint cfg.sensitivity) = some c := by
  intro n
  induction n with
  | zero =>
    intro attempts hle hok
    rw [attemptFind] at hok
    by_cases hatt : attempts ≤ cfg.maxRetries
    · cases hfm : findFirstMatch dom (getHealingStrategies sel hint cfg.sensitivity) with
      | some healed =>
        have hh := findFirstMatch_matches hfm
        simp [hsel, hatt, hfm, cyGet, hh] at hok
        exact congrArg some hok
      | none =>
        have hlt : ¬ attempts < cfg.maxRetries := by omega
        simp [hsel, hatt, hfm, hlt] at hok
    · simp [hsel, hatt] at hok
  | succ n ih =>
    intro attempts hle hok
    rw [attemptFind] at hok
    by_cases hatt : attempts ≤ cfg.maxRetries
    · cases hfm : findFirstMatch dom (getHealingStrategies sel hint cfg.sensitivity) with
      | some healed =>
        have hh := findFirstMatch_matches hfm
        simp [hsel, hatt, hfm, cyGet, hh] at hok
        exact congrArg some hok
      | none =>
        by_cases hlt : attempts < cfg.maxRetries
        · simp [hsel, hatt, hfm, hlt] at hok
          have h2 := ih (attempts + 1) (by omega) hok
          rw [hfm] at h2
          exact h2
        · simp [hsel, hatt, hfm, hlt] at hok
    · simp [hsel, hatt] at hok

/-- One-step equation: attempt fails, a later attempt remains. -/
theorem attemptFind_step_fail (env : TestEnv) (cfg : AutoHealingConfig)
    (sel : String) (hint : Option String) (doms : Nat → Dom) (rand : Nat → ℚ)
    (attempts : Nat) (hdom : doms attempts sel = false)
    (hfm : findFirstMatch (doms attempts)
      (getHealingStrategies sel hint cfg.sensitivity) = none)
    (hlt : attempts < cfg.maxRetries) :
    attemptFind env cfg sel hint doms rand attempts =
      { outcome := (attemptFind env cfg sel hint doms rand (attempts + 1)).outcome
        logs := (attemptFind env cfg sel hint doms rand (attempts + 1)).logs
        waits := getRetryDelay attempts (rand attempts) ::
          (attemptFind env cfg sel hint doms rand (attempts + 1)).waits
        strategiesGenerated :=
          1 + (attemptFind env cfg sel hint doms rand (attempts + 1)).strategiesGenerated } := by
  rw [attemptFind]
  simp [hdom, hfm, hlt, Nat.le_of_lt hlt]

/-- One-step equation: final attempt fails and the loop gives up. -/
theorem attemptFind_last_fail (env : TestEnv) (cfg : AutoHealingConfig)
    (sel : String) (hint : Option String) (doms : Nat → Dom) (rand : Nat → ℚ)
    (attempts : Nat) (hdom : doms attempts sel = false)
    (hfm : findFirstMatch (doms attempts)
      (getHealingStrategies sel hint cfg.sensitivity) = none)
    (hle : attempts ≤ cfg.maxRetries) (hnlt : ¬ attempts < cfg.maxRetries) :
    attemptFind env cfg sel hint doms rand attempts =
      { outcome := Except.error (healFailMsg sel cfg.maxRetries)
        logs := [mkHealLog env sel "" "healing_failed" hint]
        waits := [], strategiesGenerated := 1 } := by
  rw [attemptFind]
  simp [hdom, hfm, hle, hnlt]

/-- One-step equation: the strategy loop heals the selector. -/
theorem attemptFind_heal_found (env : TestEnv) (cfg : AutoHealingConfig)
    (sel : String) (hint : Option String) (doms : Nat → Dom) (rand : Nat → ℚ)
    (attempts : Nat) (healed : String) (hdom : doms attempts sel = false)
    (hfm : findFirstMatch (doms attempts)
      (getHealingStrategies sel hint cfg.sensitivity) = some healed)
    (hle : attempts ≤ cfg.maxRetries) :
    attemptFind env cfg sel hint doms rand attempts =
      { outcome := cyGet (doms attempts) healed
        logs := [mkHealLog env sel healed "element_found" hint]
        waits := [], strategiesGenerated := 1 } := by
  rw [attemptFind]
  simp [hdom, hfm, hle]

/-! ## Claim theorems -/

/-- C2: for every input selector, element-type hint and sensitivity setting,
the strategy list the resolver tries contains only strategies whose priority
is at most the sensitivity ceiling (low → 2, medium → 4, high → 6), and the
filtered list is in ascending priority order. -/
theorem c2_strategies_filtered_and_sorted (sel : String) (hint : Option String)
    (sens : Sensitivity) :
    (∀ s ∈ getHealingStrategies sel hint sens,
        s.priority ≤ getSensitivityMaxPriority sens) ∧
    List.Sorted strategyOrder (getHealingStrategies sel hint sens) := by
  constructor
  · intro s hs
    unfold getHealingStrategies at hs
    exact priority_le_of_mem_filterStrategies hs
  · unfold getHealingStrategies
    exact sorted_filterStrategies sens _

/-- Closed witness for C2 at a concrete selector, hint and sensitivity. -/
theorem c2_strategies_filtered_and_sorted_witness :
    (∀ s ∈ getHealingStrategies "#submit-btn" (some "button") Sensitivity.medium,
        s.priority ≤ getSensitivityMaxPriority Sensitivity.medium) ∧
    List.Sorted strategyOrder
      (getHealingStrategies "#submit-btn" (some "button") Sensitivity.medium) :=
  c2_strategies_filtered_and_sorted "#submit-btn" (some "button") Sensitivity.medium

/-- C5 (counterexample): on `"#submit-btn"` an identifier is extracted and
the attribute strategy produces 28 candidates (7 attributes × 4 operators),
not 24 as claimed. -/
theorem c5_counterexample :
    (extractIdentifier "#submit-btn").isSome = true ∧
    (getAttributeStrategy "#submit-btn").selectors.length ≠ 24 := by
  constructor
  · decide
  · decide

/-- C5 (amended): for every original selector the attribute strategy
produces exactly 28 candidate selectors — the attributes id, name,
data-testid, data-cy, data-test, class, aria-label each combined with the
operators `=`, `*=`, `^=`, `$=` — when an identifier can be extracted, and
exactly 0 candidates otherwise. -/
theorem c5_attribute_strategy_card (sel : String) :
    ((extractIdentifier sel).isSome = true →
      (getAttributeStrategy sel).selectors.length = 28 ∧
      (getAttributeStrategy sel).selectors =
        attributeNames.flatMap
          (fun attr => attrVariants attr ((extractIdentifier sel).getD ""))) ∧
    (extractIdentifier sel = none → (getAttributeStrategy sel).selectors = []) := by
  cases h : extractIdentifier sel with
  | none =>
    constructor
    · intro hsome; simp at hsome
    · intro _; unfold getAttributeStrategy; rw [h]
  | some ident =>
    constructor
    · intro _
      constructor
      · unfold getAttributeStrategy
        rw [h]
        simp [attributeNames, attrVariants]
      · unfold getAttributeStrategy
        rw [h]
        rfl
    · intro hnone; exact absurd hnone (by simp)

/-- Closed witness for C5 at `"#submit-btn"`. -/
theorem c5_attribute_strategy_card_witness :
    (extractIdentifier "#submit-btn").isSome = true ∧
    (getAttributeStrategy "#submit-btn").selectors.length = 28 :=
  ⟨by decide, ((c5_attribute_strategy_card "#submit-btn").1 (by decide)).1⟩

/-- C9 (counterexample): strategy generation is not a function of the
original selector and element-type hint alone — with identical selector and
hint, the configured sensitivity (hidden singleton state read by
`getStructuralStrategy` and `filterStrategiesBySensitivity`) changes the
output. -/
theorem c9_counterexample :
    getHealingStrategies "#form" none Sensitivity.low ≠
      getHealingStrategies "#form" none Sensitivity.high := by
  intro h
  exact absurd (congrArg List.length h) (by decide)

/-- C9 (amended): strategy generation is a pure, deterministic function of
the original selector, the element-type hint and the configured sensitivity:
two calls with identical values of those three inputs yield identical
output, with no dependence on randomness, I/O or any further state. -/
theorem c9_generation_deterministic (sel₁ sel₂ : String)
    (hint₁ hint₂ : Option String) (sens₁ sens₂ : Sensitivity)
    (hsel : sel₁ = sel₂) (hhint : hint₁ = hint₂) (hsens : sens₁ = sens₂) :
    getHealingStrategies sel₁ hint₁ sens₁ = getHealingStrategies sel₂ hint₂ sens₂ := by
  subst hsel; subst hhint; subst hsens; rfl

/-- Closed witness for C9 at concrete inputs. -/
theorem c9_generation_deterministic_witness :
    getHealingStrategies "#submit-btn" (some "button") Sensitivity.medium =
      getHealingStrategies "#submit-btn" (some "button") Sensitivity.medium :=
  c9_generation_deterministic "#submit-btn" "#submit-btn" (some "button") (some "button")
    Sensitivity.medium Sensitivity.medium rfl rfl rfl

/-- C1: when the original selector does not match the snapshot and an
enabled resolution succeeds, the returned candidate is the first one —
scanning the sensitivity-permitted strategies in ascending priority order
and each strategy's candidates in generation order — that matches the
snapshot; every candidate before it fails to match, so no later candidate is
ever returned when an earlier one matches. -/
theorem c1_first_matching_candidate (env : TestEnv) (sens : Sensitivity)
    (maxRetries : Nat) (rp sel : String) (hint : Option String) (dom : Dom)
    (rand : Nat → ℚ) (c : String)
    (hsel : dom sel = false)
    (hok : (findElement env ⟨true, sens, maxRetries, rp⟩ sel hint
        (fun _ => dom) rand).outcome = Except.ok c) :
    ∃ before after,
      (getHealingStrategies sel hint sens).flatMap (fun s => s.selectors) =
        before ++ c :: after ∧
      dom c = true ∧
      ∀ x ∈ before, dom x = false := by
  have hok2 : (attemptFind ⟨env.timestamp, env.testFile⟩ ⟨true, sens, maxRetries, rp⟩
      sel hint (fun _ => dom) rand 1).outcome = Except.ok c := by
    unfold findElement at hok
    simpa using hok
  have hfm := attemptFind_const_ok ⟨env.timestamp, env.testFile⟩
    ⟨true, sens, maxRetries, rp⟩ sel hint dom rand c hsel maxRetries 1
    (Nat.sub_le maxRetries 1) hok2
  unfold findFirstMatch at hfm
  exact find?_split hfm

/-- Closed witness for C1: a snapshot matching a priority-3 text-strategy
candidate and a priority-5 role-strategy candidate; the resolver returns the
priority-3 one. -/
theorem c1_first_matching_candidate_witness :
    ∃ before after,
      (getHealingStrategies "#submit-btn" none Sensitivity.high).flatMap
          (fun s => s.selectors) =
        before ++ "button:contains(\"submit btn\")" :: after ∧
      fixtureDom "button:contains(\"submit btn\")" = true ∧
      ∀ x ∈ before, fixtureDom x = false :=
  c1_first_matching_candidate ⟨"", ""⟩ Sensitivity.high 3 "" "#submit-btn" none
    fixtureDom (fun _ => 0) "button:contains(\"submit btn\")" rfl (by
      show (attemptFind ⟨"", ""⟩ ⟨true, Sensitivity.high, 3, ""⟩ "#submit-btn" none
        (fun _ => fixtureDom) (fun _ => 0) 1).outcome =
          Except.ok "button:contains(\"submit btn\")"
      rw [attemptFind_heal_found ⟨"", ""⟩ ⟨true, Sensitivity.high, 3, ""⟩ "#submit-btn"
        none (fun _ => fixtureDom) (fun _ => 0) 1 "button:contains(\"submit btn\")"
        rfl (by rfl) (by decide)]
      rfl)

/-- C3 (counterexample): with `maxRetries = 2` and a snapshot matching
nothing, the resolver performs exactly one backoff wait (of 1000 ms at zero
jitter), not the two waits the claim requires. -/
theorem c3_counterexample :
    (findElement ⟨"", ""⟩ ⟨true, Sensitivity.medium, 2, ""⟩ "#x" none
        (fun _ _ => false) (fun _ => 0)).waits = [1000] ∧
    (findElement ⟨"", ""⟩ ⟨true, Sensitivity.medium, 2, ""⟩ "#x" none
        (fun _ _ => false) (fun _ => 0)).waits.length ≠ 2 := by
  have h1 : ∀ k : Nat, findFirstMatch ((fun (_ : Nat) (_ : String) => false) k)
      (getHealingStrategies "#x" none Sensitivity.medium) = none :=
    fun k => findFirstMatch_of_nomatch (fun _ => rfl) _
  have e2 := attemptFind_last_fail ⟨"", ""⟩ ⟨true, Sensitivity.medium, 2, ""⟩ "#x" none
    (fun _ _ => false) (fun _ => 0) 2 rfl (h1 2) (by decide) (by decide)
  have e1 := attemptFind_step_fail ⟨"", ""⟩ ⟨true, Sensitivity.medium, 2, ""⟩ "#x" none
    (fun _ _ => false) (fun _ => 0) 1 rfl (h1 1) (by decide)
  have hw : (findElement ⟨"", ""⟩ ⟨true, Sensitivity.medium, 2, ""⟩ "#x" none
      (fun _ _ => false) (fun _ => 0)).waits = [1000] := by
    show (attemptFind ⟨"", ""⟩ ⟨true, Sensitivity.medium, 2, ""⟩ "#x" none
      (fun _ _ => false) (fun _ => 0) 1).waits = [1000]
    rw [e1, e2]
    show [getRetryDelay 1 0] = [1000]
    rw [show getRetryDelay 1 0 = 1000 by unfold getRetryDelay; norm_num]
  refine ⟨hw, ?_⟩
  rw [hw]
  simp

/-- C3 (amended): given `maxRetries = 2` and snapshots in which neither the
original selector nor any generated candidate ever matches, `findElement`
performs exactly one backoff wait, of 1000 ms exceeded by at most 10%
jitter, and then raises the element-not-found error. -/
theorem c3_single_backoff (env : TestEnv) (sens : Sensitivity) (rp sel : String)
    (hint : Option String) (doms : Nat → Dom) (rand : Nat → ℚ)
    (hdoms : ∀ k s, doms k s = false)
    (hrand : ∀ k, 0 ≤ rand k ∧ rand k < 1) :
    (findElement env ⟨true, sens, 2, rp⟩ sel hint doms rand).outcome =
        Except.error (healFailMsg sel 2) ∧
    (findElement env ⟨true, sens, 2, rp⟩ sel hint doms rand).waits =
        [getRetryDelay 1 (rand 1)] ∧
    1000 ≤ getRetryDelay 1 (rand 1) ∧ getRetryDelay 1 (rand 1) < 1100 := by
  have h1 : ∀ k, findFirstMatch (doms k) (getHealingStrategies sel hint sens) = none :=
    fun k => findFirstMatch_of_nomatch (hdoms k) _
  have e2 : attemptFind env ⟨true, sens, 2, rp⟩ sel hint doms rand 2 =
      { outcome := Except.error (healFailMsg sel 2)
        logs := [mkHealLog env sel "" "healing_failed" hint]
        waits := [], strategiesGenerated := 1 } := by
    rw [attemptFind]
    simp [hdoms 2 sel, h1 2]
  have e1 : attemptFind env ⟨true, sens, 2, rp⟩ sel hint doms rand 1 =
      { outcome := Except.error (healFailMsg sel 2)
        logs := [mkHealLog env sel "" "healing_failed" hint]
        waits := [getRetryDelay 1 (rand 1)], strategiesGenerated := 2 } := by
    rw [attemptFind]
    simp [hdoms 1 sel, h1 1, e2]
  have hfe : findElement env ⟨true, sens, 2, rp⟩ sel hint doms rand =
      attemptFind env ⟨true, sens, 2, rp⟩ sel hint doms rand 1 := by
    unfold findElement
    simp
  have hb : getRetryDelay 1 (rand 1) = 1000 + 100 * rand 1 := by
    unfold getRetryDelay
    norm_num
    ring
  obtain ⟨hr0, hr1⟩ := hrand 1
  refine ⟨?_, ?_, ?_, ?_⟩
  · rw [hfe, e1]
  · rw [hfe, e1]
  · rw [hb]; linarith
  · rw [hb]; linarith

/-- Closed witness for C3 (amended) at a concrete no-match snapshot and a
concrete jitter draw of 1/2. -/
theorem c3_single_backoff_witness :
    (findElement ⟨"", ""⟩ ⟨true, Sensitivity.medium, 2, ""⟩ "#y" none
        (fun _ _ => false) (fun _ => (1 : ℚ)/2)).outcome =
      Except.error (healFailMsg "#y" 2) ∧
    (findElement ⟨"", ""⟩ ⟨true, Sensitivity.medium, 2, ""⟩ "#y" none
        (fun _ _ => false) (fun _ => (1 : ℚ)/2)).waits =
      [getRetryDelay 1 ((1 : ℚ)/2)] ∧
    1000 ≤ getRetryDelay 1 ((1 : ℚ)/2) ∧ getRetryDelay 1 ((1 : ℚ)/2) < 1100 :=
  c3_single_backoff ⟨"", ""⟩ Sensitivity.medium "" "#y" none (fun _ _ => false)
    (fun _ => (1 : ℚ)/2) (fun _ _ => rfl) (fun _ => by norm_num)

/-- C4: a selector that matches the current snapshot is returned on the
first probe, with no fallback-strategy generation, no backoff wait and no
healing-log entry — whether healing is enabled or not. -/
theorem c4_fast_path (env : TestEnv) (cfg : AutoHealingConfig) (sel : String)
    (hint : Option String) (doms : Nat → Dom) (rand : Nat → ℚ)
    (hmatch : doms 1 sel = true) :
    findElement env cfg sel hint doms rand =
      { outcome := Except.ok sel, logs := [], waits := [], strategiesGenerated := 0 } := by
  unfold findElement
  cases he : cfg.enabled with
  | false => simp [he, cyGet, hmatch]
  | true =>
    rw [attemptFind]
    simp [he, cyGet, hmatch]

/-- Closed witness for C4 at a snapshot matching the original selector. -/
theorem c4_fast_path_witness :
    findElement ⟨"", ""⟩ ⟨true, Sensitivity.medium, 3, ""⟩ "#x" none
        (fun _ s => s == "#x") (fun _ => 0) =
      { outcome := Except.ok "#x", logs := [], waits := [], strategiesGenerated := 0 } :=
  c4_fast_path ⟨"", ""⟩ ⟨true, Sensitivity.medium, 3, ""⟩ "#x" none
    (fun _ s => s == "#x") (fun _ => 0) rfl

/-- C6: when an enabled resolution ends in an error, exactly one
`healing_failed` healing-log record is appended, the error message names the
original selector and the configured attempt count, and no element is
returned. -/
theorem c6_exhaustion_log_and_error (env : TestEnv) (cfg : AutoHealingConfig)
    (sel : String) (hint : Option String) (doms : Nat → Dom) (rand : Nat → ℚ)
    (m : String) (hen : cfg.enabled = true)
    (herr : (findElement env cfg sel hint doms rand).outcome = Except.error m) :
    ((findElement env cfg sel hint doms rand).logs.filter
        (fun l => l.action == "healing_failed")).length = 1 ∧
    m = healFailMsg sel cfg.maxRetries ∧
    (∃ pre mid post, m = pre ++ sel ++ mid ++ toString cfg.maxRetries ++ post) ∧
    ∀ e, (findElement env cfg sel hint doms rand).outcome ≠ Except.ok e := by
  have hfe : findElement env cfg sel hint doms rand =
      attemptFind env cfg sel hint doms rand 1 := by
    unfold findElement
    simp [hen]
  rw [hfe] at herr ⊢
  obtain ⟨hlogs, hm⟩ := attemptFind_error_shape env cfg sel hint doms rand
    cfg.maxRetries 1 m (by omega) herr
  refine ⟨?_, hm, ?_, ?_⟩
  · rw [hlogs]
    simp [mkHealLog]
  · exact ⟨"Auto-healing failed: Element not found with selector \"", "\" after ",
      " attempts using all available strategies", by rw [hm]; rfl⟩
  · intro e
    rw [herr]
    simp

/-- Closed witness for C6 at a concrete no-match snapshot (binder-free
conjuncts of the conclusion). -/
theorem c6_exhaustion_log_and_error_witness :
    ((findElement ⟨"", ""⟩ ⟨true, Sensitivity.low, 1, ""⟩ "#z" none
        (fun _ _ => false) (fun _ => 0)).logs.filter
          (fun l => l.action == "healing_failed")).length = 1 ∧
    healFailMsg "#z" 1 = healFailMsg "#z" 1 := by
  have herr : (findElement ⟨"", ""⟩ ⟨true, Sensitivity.low, 1, ""⟩ "#z" none
      (fun _ _ => false) (fun _ => 0)).outcome = Except.error (healFailMsg "#z" 1) := by
    show (attemptFind ⟨"", ""⟩ ⟨true, Sensitivity.low, 1, ""⟩ "#z" none
      (fun _ _ => false) (fun _ => 0) 1).outcome = Except.error (healFailMsg "#z" 1)
    rw [attemptFind_last_fail ⟨"", ""⟩ ⟨true, Sensitivity.low, 1, ""⟩ "#z" none
      (fun _ _ => false) (fun _ => 0) 1 rfl
      (findFirstMatch_of_nomatch (fun _ => rfl) _) (by decide) (by decide)]
  exact ⟨(c6_exhaustion_log_and_error ⟨"", ""⟩ ⟨true, Sensitivity.low, 1, ""⟩ "#z" none
      (fun _ _ => false) (fun _ => 0) (healFailMsg "#z" 1) rfl herr).1,
    (c6_exhaustion_log_and_error ⟨"", ""⟩ ⟨true, Sensitivity.low, 1, ""⟩ "#z" none
      (fun _ _ => false) (fun _ => 0) (healFailMsg "#z" 1) rfl herr).2.1⟩

/-- C10: with healing disabled, `findElement` is exactly a plain `cy.get`
of the original selector: same outcome whether or not the selector matches,
no strategy generation, no waits, no healing-log entries. -/
theorem c10_disabled_equiv_plain_get (env : TestEnv) (cfg : AutoHealingConfig)
    (sel : String) (hint : Option String) (doms : Nat → Dom) (rand : Nat → ℚ)
    (hdis : cfg.enabled = false) :
    findElement env cfg sel hint doms rand =
      { outcome := cyGet (doms 1) sel, logs := [], waits := [], strategiesGenerated := 0 } := by
  unfold findElement
  simp [hdis]

/-- Closed witness for C10 with a disabled configuration and a snapshot that
does not match (the plain `cy.get` failure is propagated unchanged). -/
theorem c10_disabled_equiv_plain_get_witness :
    findElement ⟨"", ""⟩ ⟨false, Sensitivity.medium, 3, ""⟩ "#w" none
        (fun _ _ => false) (fun _ => 0) =
      { outcome := cyGet (fun _ => false) "#w", logs := [], waits := [],
        strategiesGenerated := 0 } :=
  c10_disabled_equiv_plain_get ⟨"", ""⟩ ⟨false, Sensitivity.medium, 3, ""⟩ "#w" none
    (fun _ _ => false) (fun _ => 0) rfl

/-- C7: the comparison's `passed` field is true exactly when the
differing-pixel count is 0, while the caller fails the test only when the
count exceeds `threshold * 1000`; a comparison can therefore report
not-passed without failing the test. -/
theorem c7_passed_iff_zero_diff (pixelmatch : Image → Image → ℚ → Nat)
    (baseline actual : Image) (threshold : ℚ) (diffPath : String)
    (_hw : baseline.width = actual.width) (_hh : baseline.height = actual.height) :
    ((compareImagesTask pixelmatch baseline actual threshold diffPath).passed = true ↔
      pixelmatch baseline actual threshold = 0) ∧
    (compareSnapshotFails (compareImagesTask pixelmatch baseline actual threshold diffPath)
        threshold = true ↔
      (pixelmatch baseline actual threshold ≠ 0 ∧
        (pixelmatch baseline actual threshold : ℚ) > threshold * 1000)) ∧
    (∃ (pm2 : Image → Image → ℚ → Nat) (b2 a2 : Image) (t2 : ℚ) (p2 : String),
      b2.width = a2.width ∧ b2.height = a2.height ∧
      (compareImagesTask pm2 b2 a2 t2 p2).passed = false ∧
      compareSnapshotFails (compareImagesTask pm2 b2 a2 t2 p2) t2 = false) := by
  refine ⟨?_, ?_, ?_⟩
  · simp [compareImagesTask]
  · simp [compareImagesTask, compareSnapshotFails]
  · refine ⟨fun _ _ _ => 5, ⟨1, 1, []⟩, ⟨1, 1, []⟩, 1, "", rfl, rfl, ?_, ?_⟩
    · rfl
    · simp [compareImagesTask, compareSnapshotFails]
      norm_num

/-- Closed witness for C7 at a concrete diff routine and threshold. -/
theorem c7_passed_iff_zero_diff_witness :
    (((compareImagesTask (fun _ _ _ => 0) ⟨2, 2, []⟩ ⟨2, 2, []⟩ 1 "d.png").passed = true ↔
      (fun (_ _ : Image) (_ : ℚ) => (0 : Nat)) ⟨2, 2, []⟩ ⟨2, 2, []⟩ 1 = 0)) :=
  (c7_passed_iff_zero_diff (fun _ _ _ => 0) ⟨2, 2, []⟩ ⟨2, 2, []⟩ 1 "d.png" rfl rfl).1

/-- C8: when no baseline image exists at the baseline path, the comparison
writes the actual image as the new baseline and returns a passing result
with 0 differing pixels, leaving every other file untouched. -/
theorem c8_missing_baseline_first_run (cmpTask : Image → Image → VisualComparisonResult)
    (baselinePath actualPath : String) (fs : String → Option Image)
    (hnone : fs baselinePath = none) :
    ∃ fs2,
      performImageComparison cmpTask baselinePath actualPath fs =
        Except.ok ({ passed := true, diffPixels := 0, diffPath := none, error := none }, fs2) ∧
      fs2 baselinePath = fs actualPath ∧
      ∀ p, p ≠ baselinePath → fs2 p = fs p := by
  refine ⟨copyFileTask fs actualPath baselinePath, ?_, ?_, ?_⟩
  · unfold performImageComparison
    rw [hnone]
  · unfold copyFileTask
    simp
  · intro p hp
    unfold copyFileTask
    simp [hp]

/-- Closed witness for C8 with a filesystem holding only the actual image. -/
theorem c8_missing_baseline_first_run_witness :
    ∃ fs2,
      performImageComparison (fun _ _ => ⟨true, 0, none, none⟩) "base.png" "act.png"
          (fun p => if p = "act.png" then some ⟨1, 1, [7]⟩ else none) =
        Except.ok ({ passed := true, diffPixels := 0, diffPath := none, error := none }, fs2) ∧
      fs2 "base.png" =
        (fun p => if p = "act.png" then some (⟨1, 1, [7]⟩ : Image) else none) "act.png" ∧
      ∀ p, p ≠ "base.png" →
        fs2 p = (fun p => if p = "act.png" then some (⟨1, 1, [7]⟩ : Image) else none) p :=
  c8_missing_baseline_first_run (fun _ _ => ⟨true, 0, none, none⟩) "base.png" "act.png"
    (fun p => if p = "act.png" then some ⟨1, 1, [7]⟩ else none) rfl

end CypressAuto
